import Mathlib

/-!
Shallow embedding of the GPGMM D3D12 resource-allocator facade
(src/src/gpgmm/d3d12/ResourceAllocatorD3D12.cpp) and of the resource
allocation release path (src/src/d3d12/ResourceAllocationD3D12.cpp).

The facade composes abstract `MemoryAllocator` sub-allocators (whose
implementations live outside src/ and are therefore modelled as opaque
state-free decision functions), a device backend, and an optional
residency manager.  Every externally observable action of the facade is
recorded in an event trace so that ordering and absence of side effects
can be stated and proved.
-/

namespace GPGMM

/-- Sentinel for an invalid (unbounded) size.  Modelled from the spec:
`kInvalidSize` is declared in MemoryAllocator.h which is not under src/;
it is the all-ones 64-bit value, compared against `GetMemorySize()` to
detect allocators without a fixed underlying memory size. -/
def kInvalidSize : Nat := 2 ^ 64 - 1

/-- Sentinel for an invalid offset.  Modelled from the spec: declared
next to `kInvalidSize` outside src/; the all-ones 64-bit value, stored as
the offset of standalone allocations which have no sub-allocation offset. -/
def kInvalidOffset : Nat := 2 ^ 64 - 1

def D3D12_DEFAULT_RESOURCE_PLACEMENT_ALIGNMENT : Nat := 65536

def D3D12_SMALL_RESOURCE_PLACEMENT_ALIGNMENT : Nat := 4096

def D3D12_DEFAULT_MSAA_RESOURCE_PLACEMENT_ALIGNMENT : Nat := 4194304

def D3D12_SMALL_MSAA_RESOURCE_PLACEMENT_ALIGNMENT : Nat := 65536

/-- COM result codes, as signed 32-bit integers. -/
abbrev HRESULT := Int

def S_OK : HRESULT := 0

def E_FAIL : HRESULT := 0x80004005 - 2 ^ 32

def E_OUTOFMEMORY : HRESULT := 0x8007000E - 2 ^ 32

def E_INVALIDARG : HRESULT := 0x80070057 - 2 ^ 32

/-- COM FAILED macro: an HRESULT is a failure iff negative as int32. -/
def FAILED (hr : HRESULT) : Bool := decide (hr < 0)

/-- COM SUCCEEDED macro. -/
def SUCCEEDED (hr : HRESULT) : Bool := decide (0 ≤ hr)

/-- D3D12_HEAP_TYPE values used by the allocator. -/
inductive HeapType where
  | DEFAULT
  | UPLOAD
  | READBACK
  | CUSTOM
deriving DecidableEq

/-- D3D12_RESOURCE_DIMENSION values used by the allocator. -/
inductive ResourceDimension where
  | UNKNOWN
  | BUFFER
  | TEXTURE1D
  | TEXTURE2D
  | TEXTURE3D
deriving DecidableEq

/-- The D3D12_RESOURCE_STATES values the facade compares or produces. -/
inductive ResourceStates where
  | COMMON
  | GENERIC_READ
  | COPY_DEST
deriving DecidableEq

/-- The bits of D3D12_RESOURCE_FLAGS inspected by the facade. -/
structure ResourceFlags where
  allowRenderTarget : Bool
  allowDepthStencil : Bool
deriving DecidableEq

/-- The deny bits of D3D12_HEAP_FLAGS inspected by `GetHeapAlignment`;
the ALLOW_* combinations of the source are encoded through them exactly
as in d3d12.h (ALLOW_ALL sets none, ALLOW_ONLY_BUFFERS denies both
texture kinds, each ALLOW_ONLY_*_TEXTURES denies buffers and the other
texture kind). -/
structure HeapFlags where
  denyBuffers : Bool
  denyRtDsTextures : Bool
  denyNonRtDsTextures : Bool
deriving DecidableEq

/-- RESOURCE_HEAP_TYPE enum from ResourceAllocatorD3D12.cpp (lines 46-63). -/
inductive RESOURCE_HEAP_TYPE where
  | READBACK_ALLOW_ALL_BUFFERS_AND_TEXTURES
  | UPLOAD_ALLOW_ALL_BUFFERS_AND_TEXTURES
  | DEFAULT_ALLOW_ALL_BUFFERS_AND_TEXTURES
  | READBACK_ALLOW_ONLY_BUFFERS
  | UPLOAD_ALLOW_ONLY_BUFFERS
  | DEFAULT_ALLOW_ONLY_BUFFERS
  | DEFAULT_ALLOW_ONLY_NON_RT_OR_DS_TEXTURES
  | DEFAULT_ALLOW_ONLY_RT_OR_DS_TEXTURES
  | INVALID
deriving DecidableEq

/-- D3D12_RESOURCE_DESC fields read or written by the facade. -/
structure ResourceDesc where
  dimension : ResourceDimension
  alignment : Nat
  width : Nat
  flags : ResourceFlags
  sampleCount : Nat
deriving DecidableEq

/-- D3D12_RESOURCE_ALLOCATION_INFO. -/
structure ResourceAllocationInfo where
  sizeInBytes : Nat
  alignment : Nat
deriving DecidableEq

/-- DXGI memory segment groups. -/
inductive SegmentGroup where
  | LOCAL
  | NON_LOCAL
deriving DecidableEq

/-- A backing resource heap (HeapD3D12): the size and segment group it
was constructed with (ResourceAllocatorD3D12.cpp line 909). -/
structure Heap where
  size : Nat
  memorySegmentGroup : SegmentGroup
deriving DecidableEq

/-- AlignTo from gpgmm/common/Math.h: round `x` up to a multiple of the
power-of-two `a`. -/
def AlignTo (x a : Nat) : Nat := ((x + a - 1) / a) * a

/-- GetHeapType (ResourceAllocatorD3D12.cpp lines 118-135).  The default
branch is UNREACHABLE in the source; it returns DEFAULT. -/
def GetHeapType : RESOURCE_HEAP_TYPE → HeapType
  | .READBACK_ALLOW_ONLY_BUFFERS => .READBACK
  | .READBACK_ALLOW_ALL_BUFFERS_AND_TEXTURES => .READBACK
  | .DEFAULT_ALLOW_ALL_BUFFERS_AND_TEXTURES => .DEFAULT
  | .DEFAULT_ALLOW_ONLY_BUFFERS => .DEFAULT
  | .DEFAULT_ALLOW_ONLY_NON_RT_OR_DS_TEXTURES => .DEFAULT
  | .DEFAULT_ALLOW_ONLY_RT_OR_DS_TEXTURES => .DEFAULT
  | .UPLOAD_ALLOW_ONLY_BUFFERS => .UPLOAD
  | .UPLOAD_ALLOW_ALL_BUFFERS_AND_TEXTURES => .UPLOAD
  | .INVALID => .DEFAULT

/-- GetHeapFlags (ResourceAllocatorD3D12.cpp lines 137-155), expressed
through the deny bits of the returned D3D12_HEAP_FLAGS value.  The
default branch is UNREACHABLE in the source; it returns HEAP_FLAG_NONE. -/
def GetHeapFlags : RESOURCE_HEAP_TYPE → HeapFlags
  | .DEFAULT_ALLOW_ALL_BUFFERS_AND_TEXTURES => ⟨false, false, false⟩
  | .READBACK_ALLOW_ALL_BUFFERS_AND_TEXTURES => ⟨false, false, false⟩
  | .UPLOAD_ALLOW_ALL_BUFFERS_AND_TEXTURES => ⟨false, false, false⟩
  | .DEFAULT_ALLOW_ONLY_BUFFERS => ⟨false, true, true⟩
  | .READBACK_ALLOW_ONLY_BUFFERS => ⟨false, true, true⟩
  | .UPLOAD_ALLOW_ONLY_BUFFERS => ⟨false, true, true⟩
  | .DEFAULT_ALLOW_ONLY_NON_RT_OR_DS_TEXTURES => ⟨true, true, false⟩
  | .DEFAULT_ALLOW_ONLY_RT_OR_DS_TEXTURES => ⟨true, false, true⟩
  | .INVALID => ⟨false, false, false⟩

/-- GetHeapAlignment (ResourceAllocatorD3D12.cpp lines 158-169): heaps
that deny all textures use the 64KB default alignment, every other heap
uses the 4MB MSAA alignment. -/
def GetHeapAlignment (heapFlags : HeapFlags) : Nat :=
  if heapFlags.denyRtDsTextures && heapFlags.denyNonRtDsTextures then
    D3D12_DEFAULT_RESOURCE_PLACEMENT_ALIGNMENT
  else
    D3D12_DEFAULT_MSAA_RESOURCE_PLACEMENT_ALIGNMENT

/-- GetResourceHeapType (ResourceAllocatorD3D12.cpp lines 171-222).
`resourceHeapTier` is the numeric D3D12_RESOURCE_HEAP_TIER (1 or 2). -/
def GetResourceHeapType (dimension : ResourceDimension) (heapType : HeapType)
    (flags : ResourceFlags) (resourceHeapTier : Nat) : RESOURCE_HEAP_TYPE :=
  if resourceHeapTier ≥ 2 then
    match heapType with
    | .UPLOAD => .UPLOAD_ALLOW_ALL_BUFFERS_AND_TEXTURES
    | .DEFAULT => .DEFAULT_ALLOW_ALL_BUFFERS_AND_TEXTURES
    | .READBACK => .READBACK_ALLOW_ALL_BUFFERS_AND_TEXTURES
    | .CUSTOM => .INVALID
  else
    match dimension with
    | .BUFFER =>
      match heapType with
      | .UPLOAD => .UPLOAD_ALLOW_ONLY_BUFFERS
      | .DEFAULT => .DEFAULT_ALLOW_ONLY_BUFFERS
      | .READBACK => .READBACK_ALLOW_ONLY_BUFFERS
      | .CUSTOM => .INVALID
    | .TEXTURE1D =>
      match heapType with
      | .DEFAULT =>
        if flags.allowDepthStencil || flags.allowRenderTarget then
          .DEFAULT_ALLOW_ONLY_RT_OR_DS_TEXTURES
        else
          .DEFAULT_ALLOW_ONLY_NON_RT_OR_DS_TEXTURES
      | _ => .INVALID
    | .TEXTURE2D =>
      match heapType with
      | .DEFAULT =>
        if flags.allowDepthStencil || flags.allowRenderTarget then
          .DEFAULT_ALLOW_ONLY_RT_OR_DS_TEXTURES
        else
          .DEFAULT_ALLOW_ONLY_NON_RT_OR_DS_TEXTURES
      | _ => .INVALID
    | .TEXTURE3D =>
      match heapType with
      | .DEFAULT =>
        if flags.allowDepthStencil || flags.allowRenderTarget then
          .DEFAULT_ALLOW_ONLY_RT_OR_DS_TEXTURES
        else
          .DEFAULT_ALLOW_ONLY_NON_RT_OR_DS_TEXTURES
      | _ => .INVALID
    | .UNKNOWN => .INVALID

/-- GetInitialResourceState (ResourceAllocatorD3D12.cpp lines 224-236).
The CUSTOM branch is UNREACHABLE in the source; it returns GENERIC_READ. -/
def GetInitialResourceState : HeapType → ResourceStates
  | .DEFAULT => .GENERIC_READ
  | .UPLOAD => .GENERIC_READ
  | .READBACK => .COPY_DEST
  | .CUSTOM => .GENERIC_READ

/-- The device backend consumed by the facade.  All of these calls are
external to the library (ID3D12Device / UtilsD3D12); they are modelled
as pure decision functions supplied to the embedding. -/
structure DeviceModel where
  getResourceAllocationInfo : ResourceDesc → ResourceAllocationInfo
  isAllowedToUseSmallAlignment : ResourceDesc → Bool
  getPreferredMemorySegmentGroup : Bool → HeapType → SegmentGroup
  getPageableAsResource : Heap → HRESULT
  createPlacedResource : Heap → Nat → ResourceDesc → HRESULT
  createCommittedResource : HeapType → ResourceDesc → HRESULT

/-- Device-query step of GetResourceAllocationInfo (lines 93-109):
query the device; if the requested alignment was rejected, clear the
alignment and let the device report the required one by re-querying. -/
def GetResourceAllocationInfoQuery (device : DeviceModel) (desc1 : ResourceDesc) :
    ResourceDesc × ResourceAllocationInfo :=
  let resourceInfo1 := device.getResourceAllocationInfo desc1
  if desc1.alignment ≠ 0 ∧ desc1.alignment ≠ resourceInfo1.alignment then
    let desc2 := { desc1 with alignment := 0 }
    (desc2, device.getResourceAllocationInfo desc2)
  else
    (desc1, resourceInfo1)

/-- GetResourceAllocationInfo (ResourceAllocatorD3D12.cpp lines 65-116).
Returns the possibly-updated resource descriptor (taken by reference in
the source) together with the allocation info; a device-reported size of
0 is replaced by the invalid-size sentinel. -/
def GetResourceAllocationInfo (device : DeviceModel)
    (resourceDescriptor : ResourceDesc) : ResourceDesc × ResourceAllocationInfo :=
  if resourceDescriptor.alignment = 0 ∧ resourceDescriptor.dimension = .BUFFER then
    (resourceDescriptor,
      ⟨AlignTo resourceDescriptor.width D3D12_DEFAULT_RESOURCE_PLACEMENT_ALIGNMENT,
        D3D12_DEFAULT_RESOURCE_PLACEMENT_ALIGNMENT⟩)
  else
    let desc1 :=
      if (resourceDescriptor.dimension = .TEXTURE1D ∨
            resourceDescriptor.dimension = .TEXTURE2D ∨
            resourceDescriptor.dimension = .TEXTURE3D) ∧
          device.isAllowedToUseSmallAlignment resourceDescriptor = true ∧
          resourceDescriptor.flags.allowRenderTarget = false ∧
          resourceDescriptor.flags.allowDepthStencil = false then
        { resourceDescriptor with
          alignment :=
            if resourceDescriptor.sampleCount > 1 then
              D3D12_SMALL_MSAA_RESOURCE_PLACEMENT_ALIGNMENT
            else
              D3D12_SMALL_RESOURCE_PLACEMENT_ALIGNMENT }
      else
        resourceDescriptor
    let step2 := GetResourceAllocationInfoQuery device desc1
    if step2.2.sizeInBytes = 0 then
      (step2.1, { step2.2 with sizeInBytes := kInvalidSize })
    else
      step2

/-- Allocation methods of a MemoryAllocation.  Modelled from the spec
(§3 `method` attribute); the enum itself lives in MemoryAllocation.h
which is not under src/.  `kUndefined` is the state after Reset. -/
inductive AllocationMethod where
  | kSubAllocated
  | kSubAllocatedWithinResource
  | kStandalone
  | kUndefined
deriving DecidableEq

/-- A MemoryAllocation as returned by a sub-allocator's
TryAllocateMemory: the identity of the allocator that produced it, the
offset, the block size, the method and the backing heap. -/
structure MemoryAllocation where
  allocatorId : Nat
  offset : Nat
  size : Nat
  method : AllocationMethod
  heap : Heap
deriving DecidableEq

/-- An abstract MemoryAllocator (the MemoryAllocator interface of
MemoryAllocator.h, which is not under src/): its fixed memory size as
reported by GetMemorySize() (kInvalidSize when it has none), and its
TryAllocateMemory decision function taking
(size, alignment, neverAllocate, cacheSize, prefetchMemory). -/
structure MemoryAllocator where
  id : Nat
  memorySize : Nat
  tryAllocateMemory : Nat → Nat → Bool → Bool → Bool → Option MemoryAllocation

/-- Identity of the allocator recorded on a returned resource
allocation: either a sub-allocator or the facade itself (the committed
path passes `this`). -/
inductive AllocatorRef where
  | facade
  | sub (id : Nat)
deriving DecidableEq

/-- The facade-visible ResourceAllocation object: the recorded owning
allocator, the offset, the method, the backing heap, the block size (the
block back-reference, when sub-allocated) and whether a live D3D12
resource is held. -/
structure ResourceAllocation where
  allocator : Option AllocatorRef
  offset : Nat
  method : AllocationMethod
  heap : Option Heap
  blockSize : Option Nat
  hasResource : Bool
deriving DecidableEq

/-- Modelled from the spec: MemoryAllocation::GetSize is defined in
MemoryAllocation code that is not under src/.  Per §3 the allocation size
is the block size when sub-allocated, and per §4.6 / the Standalone
glossary entry a standalone allocation spans a Memory "sized exactly to
the request", so its size is the backing heap's size. -/
def ResourceAllocation.GetSize (a : ResourceAllocation) : Nat :=
  match a.blockSize with
  | some s => s
  | none =>
    match a.heap with
    | some h => h.size
    | none => 0

/-- Observable actions of the facade, recorded in order. -/
inductive Event where
  | tryAllocateMemoryCall (allocatorId size alignment : Nat)
      (neverAllocate cacheSize prefetchMemory : Bool)
  | deallocateMemoryCall (allocatorId : Nat) (allocation : MemoryAllocation)
  | evictCall (size : Nat) (group : SegmentGroup)
  | deviceCreatePlacedResourceCall
  | deviceCreateCommittedResourceCall
  | insertHeapCall (heap : Heap)
deriving DecidableEq

/-- Result of one TryAllocateResource attempt: the HRESULT, the
resource allocation written through the out pointer (when the create
function succeeded), and the trace of observable actions. -/
structure Attempt where
  hr : HRESULT
  out : Option ResourceAllocation
  events : List Event
deriving DecidableEq

/-- TryAllocateResource (ResourceAllocatorD3D12.cpp lines 264-296):
reject without any call when the request exceeds the allocator's fixed
memory size; otherwise call TryAllocateMemory; on memory failure return
E_FAIL; otherwise run the backend create function and, if it fails,
deallocate the just-obtained memory on the same allocator before
propagating its error. -/
def TryAllocateResource (allocator : MemoryAllocator) (size alignment : Nat)
    (neverAllocate cacheSize prefetchMemory : Bool)
    (createResourceFn : MemoryAllocation → Attempt) : Attempt :=
  if allocator.memorySize ≠ kInvalidSize ∧ size > allocator.memorySize then
    ⟨E_FAIL, none, []⟩
  else
    let callEvent := Event.tryAllocateMemoryCall allocator.id size alignment
      neverAllocate cacheSize prefetchMemory
    match allocator.tryAllocateMemory size alignment neverAllocate cacheSize prefetchMemory with
    | none => ⟨E_FAIL, none, [callEvent]⟩
    | some allocation =>
      let created := createResourceFn allocation
      if FAILED created.hr then
        ⟨created.hr, created.out,
          callEvent :: created.events ++
            [Event.deallocateMemoryCall allocator.id allocation]⟩
      else
        ⟨created.hr, created.out, callEvent :: created.events⟩

/-- ALLOCATION_DESC fields read by CreateResourceInternal: the heap type
and the individual ALLOCATION_FLAG bits. -/
structure AllocationDesc where
  heapType : HeapType
  neverAllocateFlag : Bool
  neverSubAllocateFlag : Bool
  prefetchFlag : Bool
  allowSubAllocateWithinResource : Bool
deriving DecidableEq

/-- uint64 addition with wrap-around. -/
def add64 (a b : Nat) : Nat := (a + b) % 2 ^ 64

/-- uint64 subtraction with wrap-around. -/
def sub64 (a b : Nat) : Nat := (a % 2 ^ 64 + (2 ^ 64 - b % 2 ^ 64)) % 2 ^ 64

/-- The facade's mInfo counters mutated by the committed allocation path
and DeallocateMemory (UsedMemoryUsage and UsedMemoryCount). -/
structure AllocatorCounters where
  usedMemoryUsage : Nat
  usedMemoryCount : Nat
deriving DecidableEq

/-- The ResourceAllocator facade: configuration captured at
construction, the abstract per-heap-type allocator stacks, the device
backend, the residency manager's Evict decision function (external to
src/), and the mutable mInfo counters. -/
structure ResourceAllocator where
  device : DeviceModel
  residencyManagerPresent : Bool
  isUMA : Bool
  resourceHeapTier : Nat
  isAlwaysCommitted : Bool
  isAlwaysInBudget : Bool
  maxResourceHeapSize : Nat
  maxResourceSize : Nat
  resourceAllocatorOfType : RESOURCE_HEAP_TYPE → MemoryAllocator
  resourceHeapAllocatorOfType : RESOURCE_HEAP_TYPE → MemoryAllocator
  bufferAllocatorOfType : RESOURCE_HEAP_TYPE → MemoryAllocator
  residencyEvict : Nat → SegmentGroup → HRESULT
  counters : AllocatorCounters

/-- Result of CreateCommittedResource: the HRESULT, the created resource
heap (on success) and the trace. -/
structure CommittedResult where
  hr : HRESULT
  resourceHeap : Option Heap
  events : List Event
deriving DecidableEq

/-- CreateCommittedResource (ResourceAllocatorD3D12.cpp lines 874-924):
when always-in-budget and a residency manager exists, Evict is called
with the resource size and segment group before anything is created and
its failure propagates; then the device creates the committed resource;
on success the heap wrapper is created and registered with the residency
manager when present. -/
def ResourceAllocator.CreateCommittedResource (ra : ResourceAllocator)
    (heapType : HeapType) (resourceSize : Nat) (resourceDescriptor : ResourceDesc) :
    CommittedResult :=
  let memorySegmentGroup := ra.device.getPreferredMemorySegmentGroup ra.isUMA heapType
  let evictEvents :=
    if ra.isAlwaysInBudget ∧ ra.residencyManagerPresent then
      [Event.evictCall resourceSize memorySegmentGroup]
    else
      []
  let evictHr :=
    if ra.isAlwaysInBudget ∧ ra.residencyManagerPresent then
      ra.residencyEvict resourceSize memorySegmentGroup
    else
      S_OK
  if FAILED evictHr then
    ⟨evictHr, none, evictEvents⟩
  else
    let hr := ra.device.createCommittedResource heapType resourceDescriptor
    if FAILED hr then
      ⟨hr, none, evictEvents ++ [Event.deviceCreateCommittedResourceCall]⟩
    else
      let resourceHeap : Heap := ⟨resourceSize, memorySegmentGroup⟩
      let insertEvents :=
        if ra.residencyManagerPresent then [Event.insertHeapCall resourceHeap] else []
      ⟨S_OK, some resourceHeap,
        evictEvents ++ [Event.deviceCreateCommittedResourceCall] ++ insertEvents⟩

/-- ResourceAllocator::DeallocateMemory (ResourceAllocatorD3D12.cpp
lines 990-998): subtract the allocation's size from UsedMemoryUsage and
decrement UsedMemoryCount, then release the allocation. -/
def ResourceAllocator.DeallocateMemory (ra : ResourceAllocator)
    (allocation : ResourceAllocation) : ResourceAllocator :=
  { ra with counters :=
      ⟨sub64 ra.counters.usedMemoryUsage allocation.GetSize,
        sub64 ra.counters.usedMemoryCount 1⟩ }

/-- Result of CreateResourceInternal: the HRESULT, the resource
allocation written through the out pointer on success, the facade state
(mInfo counters possibly updated by the committed path) and the trace. -/
structure CreateOut where
  hr : HRESULT
  allocation : Option ResourceAllocation
  state : ResourceAllocator
  events : List Event

/-- First allocation strategy of CreateResourceInternal (lines 669-704):
sub-allocation within a resource through the buffer allocator, attempted
only under the source's guard.  When attempted, both the cacheSize and
prefetchMemory arguments are false (the call site labels them in swapped
order, but both values are false). -/
def ResourceAllocator.suballocateWithinResourceAttempt (ra : ResourceAllocator)
    (allocationDescriptor : AllocationDesc) (newResourceDesc : ResourceDesc)
    (resourceInfo : ResourceAllocationInfo) (resourceHeapType : RESOURCE_HEAP_TYPE)
    (initialResourceState : ResourceStates) : Attempt :=
  if allocationDescriptor.allowSubAllocateWithinResource = true ∧
      resourceInfo.alignment > newResourceDesc.width ∧
      newResourceDesc.dimension = .BUFFER ∧
      GetInitialResourceState allocationDescriptor.heapType = initialResourceState ∧
      ra.isAlwaysCommitted = false ∧ allocationDescriptor.neverSubAllocateFlag = false then
    let allocator := ra.bufferAllocatorOfType resourceHeapType
    let alignment :=
      if newResourceDesc.alignment = 0 then 1 else newResourceDesc.alignment
    TryAllocateResource allocator newResourceDesc.width alignment
      allocationDescriptor.neverAllocateFlag false false
      (fun subAllocation =>
        let resourceHeap := subAllocation.heap
        let hr := ra.device.getPageableAsResource resourceHeap
        if FAILED hr then
          ⟨hr, none, []⟩
        else
          ⟨S_OK,
            some ⟨some (AllocatorRef.sub subAllocation.allocatorId),
              subAllocation.offset, .kSubAllocatedWithinResource,
              some resourceHeap, some subAllocation.size, true⟩, []⟩)
  else
    ⟨E_FAIL, none, []⟩

/-- Second allocation strategy of CreateResourceInternal (lines 709-743):
a placed resource in a sub-allocated resource heap.  The call site (line
712-715) passes the request's prefetch flag in the cacheSize parameter
position and false (labelled cacheSize in the source) in the
prefetchMemory position; this embedding reproduces that argument order
exactly as the source binds it. -/
def ResourceAllocator.suballocatedHeapAttempt (ra : ResourceAllocator)
    (allocationDescriptor : AllocationDesc) (newResourceDesc : ResourceDesc)
    (resourceInfo : ResourceAllocationInfo) (resourceHeapType : RESOURCE_HEAP_TYPE) :
    Attempt :=
  if ra.isAlwaysCommitted = false ∧ allocationDescriptor.neverSubAllocateFlag = false then
    TryAllocateResource (ra.resourceAllocatorOfType resourceHeapType)
      resourceInfo.sizeInBytes resourceInfo.alignment
      allocationDescriptor.neverAllocateFlag
      allocationDescriptor.prefetchFlag false
      (fun subAllocation =>
        let resourceHeap := subAllocation.heap
        let hr := ra.device.createPlacedResource resourceHeap
          subAllocation.offset newResourceDesc
        if FAILED hr then
          ⟨hr, none, [Event.deviceCreatePlacedResourceCall]⟩
        else
          ⟨S_OK,
            some ⟨some (AllocatorRef.sub subAllocation.allocatorId),
              subAllocation.offset, subAllocation.method,
              some resourceHeap, some subAllocation.size, true⟩,
            [Event.deviceCreatePlacedResourceCall]⟩)
  else
    ⟨E_FAIL, none, []⟩

/-- Third allocation strategy of CreateResourceInternal (lines 752-783):
a placed resource fully contained in its own resource heap. -/
def ResourceAllocator.resourceHeapAttempt (ra : ResourceAllocator)
    (allocationDescriptor : AllocationDesc) (newResourceDesc : ResourceDesc)
    (resourceInfo : ResourceAllocationInfo) (resourceHeapType : RESOURCE_HEAP_TYPE) :
    Attempt :=
  if ra.isAlwaysCommitted = false then
    TryAllocateResource (ra.resourceHeapAllocatorOfType resourceHeapType)
      resourceInfo.sizeInBytes (GetHeapAlignment (GetHeapFlags resourceHeapType))
      allocationDescriptor.neverAllocateFlag false false
      (fun allocation =>
        let resourceHeap := allocation.heap
        let hr := ra.device.createPlacedResource resourceHeap
          allocation.offset newResourceDesc
        if FAILED hr then
          ⟨hr, none, [Event.deviceCreatePlacedResourceCall]⟩
        else
          ⟨S_OK,
            some ⟨some (AllocatorRef.sub allocation.allocatorId),
              allocation.offset, allocation.method,
              some resourceHeap, some allocation.size, true⟩,
            [Event.deviceCreatePlacedResourceCall]⟩)
  else
    ⟨E_FAIL, none, []⟩

/-- CreateResourceInternal (ResourceAllocatorD3D12.cpp lines 625-817):
size validation, heap-type selection, the three escalating
TryAllocateResource strategies (each abandoned unless SUCCEEDED, per
ReturnIfSucceeded), the never-allocate out-of-memory exit, and the
committed last resort which bumps the facade's used-memory counters. -/
def ResourceAllocator.CreateResourceInternal (ra : ResourceAllocator)
    (allocationDescriptor : AllocationDesc) (resourceDescriptor : ResourceDesc)
    (initialResourceState : ResourceStates) : CreateOut :=
  let dr := GetResourceAllocationInfo ra.device resourceDescriptor
  let newResourceDesc := dr.1
  let resourceInfo := dr.2
  if resourceInfo.sizeInBytes = kInvalidSize then
    ⟨E_OUTOFMEMORY, none, ra, []⟩
  else if resourceInfo.sizeInBytes > ra.maxResourceHeapSize ∨
      resourceInfo.sizeInBytes > ra.maxResourceSize then
    ⟨E_OUTOFMEMORY, none, ra, []⟩
  else
    let resourceHeapType := GetResourceHeapType newResourceDesc.dimension
      allocationDescriptor.heapType newResourceDesc.flags ra.resourceHeapTier
    if resourceHeapType = .INVALID then
      ⟨E_INVALIDARG, none, ra, []⟩
    else
      let r1 := ra.suballocateWithinResourceAttempt allocationDescriptor
        newResourceDesc resourceInfo resourceHeapType initialResourceState
      if SUCCEEDED r1.hr then
        ⟨r1.hr, r1.out, ra, r1.events⟩
      else
        let r2 := ra.suballocatedHeapAttempt allocationDescriptor
          newResourceDesc resourceInfo resourceHeapType
        if SUCCEEDED r2.hr then
          ⟨r2.hr, r2.out, ra, r1.events ++ r2.events⟩
        else
          let r3 := ra.resourceHeapAttempt allocationDescriptor
            newResourceDesc resourceInfo resourceHeapType
          if SUCCEEDED r3.hr then
            ⟨r3.hr, r3.out, ra, r1.events ++ r2.events ++ r3.events⟩
          else if allocationDescriptor.neverAllocateFlag = true then
            ⟨E_OUTOFMEMORY, none, ra, r1.events ++ r2.events ++ r3.events⟩
          else
            let cc := ra.CreateCommittedResource allocationDescriptor.heapType
              resourceInfo.sizeInBytes newResourceDesc
            let evs := r1.events ++ r2.events ++ r3.events ++ cc.events
            if FAILED cc.hr then
              ⟨cc.hr, none, ra, evs⟩
            else
              match cc.resourceHeap with
              | some resourceHeap =>
                let ra2 := { ra with counters :=
                  ⟨add64 ra.counters.usedMemoryUsage resourceHeap.size,
                    add64 ra.counters.usedMemoryCount 1⟩ }
                ⟨S_OK,
                  some ⟨some AllocatorRef.facade, kInvalidOffset, .kStandalone,
                    some resourceHeap, none, true⟩, ra2, evs⟩
              | none =>
                ⟨E_FAIL, none, ra, evs⟩

/-- Modelled from the spec: MemoryAllocation::Reset is implemented
outside src/.  Per §4.2 `deallocate` is "idempotent on an already-
released allocation": Reset clears the recorded allocator, memory,
block and offset so that a later release finds no allocator to route
to. -/
def MemoryAllocationReset (a : ResourceAllocation) : ResourceAllocation :=
  { a with
    allocator := none
    heap := none
    blockSize := none
    offset := kInvalidOffset
    method := .kUndefined }

/-- ResourceAllocation::ReleaseThis (ResourceAllocationD3D12.cpp lines
35-46): when an allocator is recorded, route the deallocation to it;
then drop the D3D12 resource and Reset the base MemoryAllocation.
Returns the new state together with the allocator the deallocation was
routed to (none when no deallocation was performed). -/
def ResourceAllocation.ReleaseThis (a : ResourceAllocation) :
    ResourceAllocation × Option AllocatorRef :=
  (MemoryAllocationReset { a with hasResource := false }, a.allocator)

/-- Whether an event is a TryAllocateMemory query on a sub-allocator
(as opposed to an action that creates, registers, evicts or releases
backing memory or a backend resource). -/
def Event.isTryAllocateMemoryCall : Event → Bool
  | .tryAllocateMemoryCall _ _ _ _ _ _ => true
  | _ => false

/-- Sequence of `k` CreateResource calls on the facade, collecting the
produced allocations and threading the facade state; it stops early if a
call produces no allocation. -/
def createCommittedK (allocationDescriptor : AllocationDesc)
    (resourceDescriptor : ResourceDesc) (initialResourceState : ResourceStates) :
    Nat → ResourceAllocator → ResourceAllocator × List ResourceAllocation
  | 0, ra => (ra, [])
  | Nat.succ k, ra =>
    let r := ra.CreateResourceInternal allocationDescriptor resourceDescriptor
      initialResourceState
    match r.allocation with
    | some a =>
      let rest := createCommittedK allocationDescriptor resourceDescriptor
        initialResourceState k r.state
      (rest.1, a :: rest.2)
    | none => (r.state, [])

/-- Releasing a list of allocations back to the facade, in order. -/
def deallocateList : ResourceAllocator → List ResourceAllocation → ResourceAllocator
  | ra, [] => ra
  | ra, a :: rest => deallocateList (ra.DeallocateMemory a) rest

/-- Effect of one successful committed allocation of size `s` on the
facade's counters (CreateResourceInternal lines 805-806). -/
def bumpCounters (s : Nat) (c : AllocatorCounters) : AllocatorCounters :=
  ⟨add64 c.usedMemoryUsage s, add64 c.usedMemoryCount 1⟩

/-- Effect of one DeallocateMemory of size `s` on the facade's counters
(DeallocateMemory lines 995-996). -/
def dropCounters (s : Nat) (c : AllocatorCounters) : AllocatorCounters :=
  ⟨sub64 c.usedMemoryUsage s, sub64 c.usedMemoryCount 1⟩

/-- C1: for every resource-creation request handled by the facade's
TryAllocateResource, if the memory sub-allocation succeeds but the
subsequent backend resource creation fails, then the just-obtained
memory allocation is deallocated on the same allocator (a
deallocateMemoryCall carrying that allocator's identity and exactly that
allocation, after the create attempt) and the creation error is
returned, so a failed CreateResource leaves no live sub-allocation
behind. -/
theorem c1_failed_create_deallocates_on_same_allocator
    (allocator : MemoryAllocator) (size alignment : Nat)
    (neverAllocate cacheSize prefetchMemory : Bool)
    (createResourceFn : MemoryAllocation → Attempt) (allocation : MemoryAllocation)
    (hfit : ¬(allocator.memorySize ≠ kInvalidSize ∧ size > allocator.memorySize))
    (halloc : allocator.tryAllocateMemory size alignment neverAllocate cacheSize
      prefetchMemory = some allocation)
    (hfail : FAILED (createResourceFn allocation).hr = true) :
    TryAllocateResource allocator size alignment neverAllocate cacheSize
      prefetchMemory createResourceFn =
      ⟨(createResourceFn allocation).hr, (createResourceFn allocation).out,
        Event.tryAllocateMemoryCall allocator.id size alignment neverAllocate
            cacheSize prefetchMemory ::
          (createResourceFn allocation).events ++
            [Event.deallocateMemoryCall allocator.id allocation]⟩ := by
  simp [TryAllocateResource, hfit, halloc, hfail]

def c1Heap : Heap := ⟨65536, .LOCAL⟩

def c1Allocation : MemoryAllocation := ⟨7, 0, 65536, .kSubAllocated, c1Heap⟩

def c1Allocator : MemoryAllocator :=
  ⟨7, kInvalidSize, fun _ _ _ _ _ => some c1Allocation⟩

def c1CreateFn : MemoryAllocation → Attempt := fun _ => ⟨E_FAIL, none, []⟩

/-- Witness for C1 at a concrete allocator whose backend creation fails. -/
theorem c1_witness :
    TryAllocateResource c1Allocator 65536 65536 false false false c1CreateFn =
      ⟨E_FAIL, none,
        [Event.tryAllocateMemoryCall 7 65536 65536 false false false,
          Event.deallocateMemoryCall 7 c1Allocation]⟩ :=
  c1_failed_create_deallocates_on_same_allocator c1Allocator 65536 65536 false false
    false c1CreateFn c1Allocation (fun h => h.1 rfl) rfl (by decide)

/-- C3: for every allocator with a fixed underlying memory size and
every request larger than that size, TryAllocateResource fails with
E_FAIL immediately, with an empty event trace: TryAllocateMemory is
never invoked and no memory is created or released. -/
theorem c3_oversized_request_rejected_immediately
    (allocator : MemoryAllocator) (size alignment : Nat)
    (neverAllocate cacheSize prefetchMemory : Bool)
    (createResourceFn : MemoryAllocation → Attempt)
    (hfixed : allocator.memorySize ≠ kInvalidSize)
    (hbig : size > allocator.memorySize) :
    TryAllocateResource allocator size alignment neverAllocate cacheSize
      prefetchMemory createResourceFn = ⟨E_FAIL, none, []⟩ := by
  simp [TryAllocateResource, hfixed, hbig]

def c3Allocator : MemoryAllocator :=
  ⟨4, 65536, fun _ _ _ _ _ => some c1Allocation⟩

/-- Witness for C3: a 65537-byte request on an allocator with fixed
64KB memories is rejected with no trace. -/
theorem c3_witness :
    TryAllocateResource c3Allocator 65537 65536 false false false c1CreateFn =
      ⟨E_FAIL, none, []⟩ :=
  c3_oversized_request_rejected_immediately c3Allocator 65537 65536 false false false
    c1CreateFn (by decide) (by decide)

/-- C9: releasing an allocation routes the deallocation to the
allocator recorded on the allocation, and releasing an already-released
allocation is idempotent: the second release performs no deallocation
and leaves the state unchanged. -/
theorem c9_release_routes_and_is_idempotent (a : ResourceAllocation)
    (i : AllocatorRef) (h : a.allocator = some i) :
    a.ReleaseThis.2 = some i ∧
      a.ReleaseThis.1.ReleaseThis = (a.ReleaseThis.1, none) := by
  constructor
  · simp [ResourceAllocation.ReleaseThis, h]
  · rfl

def c9Allocation : ResourceAllocation :=
  ⟨some (AllocatorRef.sub 5), 0, .kSubAllocated, some c1Heap, some 256, true⟩

/-- Witness for C9 at a concrete live allocation recorded on
sub-allocator 5. -/
theorem c9_witness :
    c9Allocation.ReleaseThis.2 = some (AllocatorRef.sub 5) ∧
      c9Allocation.ReleaseThis.1.ReleaseThis = (c9Allocation.ReleaseThis.1, none) :=
  c9_release_routes_and_is_idempotent c9Allocation (AllocatorRef.sub 5) rfl

/-- C6: when the always-in-budget option is set and a residency manager
is present, every CreateCommittedResource run calls the residency
manager's Evict with the requested size and the memory segment group
first (the trace begins with that eviction, before any committed
creation or heap registration); and if the pre-eviction fails, no memory
is created and the eviction error is the result. -/
theorem c6_always_in_budget_evicts_before_commit (ra : ResourceAllocator)
    (heapType : HeapType) (resourceSize : Nat) (resourceDescriptor : ResourceDesc)
    (h1 : ra.isAlwaysInBudget = true) (h2 : ra.residencyManagerPresent = true) :
    (∃ rest, (ra.CreateCommittedResource heapType resourceSize resourceDescriptor).events =
      Event.evictCall resourceSize
          (ra.device.getPreferredMemorySegmentGroup ra.isUMA heapType) :: rest) ∧
    (FAILED (ra.residencyEvict resourceSize
        (ra.device.getPreferredMemorySegmentGroup ra.isUMA heapType)) = true →
      ra.CreateCommittedResource heapType resourceSize resourceDescriptor =
        ⟨ra.residencyEvict resourceSize
            (ra.device.getPreferredMemorySegmentGroup ra.isUMA heapType), none,
          [Event.evictCall resourceSize
            (ra.device.getPreferredMemorySegmentGroup ra.isUMA heapType)]⟩) := by
  unfold ResourceAllocator.CreateCommittedResource
  simp only [h1, h2, and_self, if_true]
  constructor
  · by_cases hf : FAILED (ra.residencyEvict resourceSize
        (ra.device.getPreferredMemorySegmentGroup ra.isUMA heapType)) = true
    · exact ⟨[], by simp [hf]⟩
    · by_cases hc : FAILED (ra.device.createCommittedResource heapType
          resourceDescriptor) = true
      · exact ⟨[Event.deviceCreateCommittedResourceCall], by simp [hf, hc]⟩
      · exact ⟨[Event.deviceCreateCommittedResourceCall,
          Event.insertHeapCall ⟨resourceSize,
            ra.device.getPreferredMemorySegmentGroup ra.isUMA heapType⟩],
          by simp [hf, hc, h2]⟩
  · intro hf
    simp [hf]

def noneAllocator (i : Nat) : MemoryAllocator :=
  ⟨i, kInvalidSize, fun _ _ _ _ _ => none⟩

def testDevice : DeviceModel :=
  ⟨fun d => ⟨AlignTo d.width D3D12_DEFAULT_RESOURCE_PLACEMENT_ALIGNMENT,
      D3D12_DEFAULT_RESOURCE_PLACEMENT_ALIGNMENT⟩,
    fun _ => false,
    fun _ _ => .LOCAL,
    fun _ => S_OK,
    fun _ _ _ => S_OK,
    fun _ _ => S_OK⟩

def bufferDesc : ResourceDesc := ⟨.BUFFER, 0, 1024, ⟨false, false⟩, 1⟩

def c6Facade : ResourceAllocator :=
  ⟨testDevice, true, false, 2, false, true, 2 ^ 32, 2 ^ 32,
    fun _ => noneAllocator 1, fun _ => noneAllocator 2, fun _ => noneAllocator 3,
    fun _ _ => E_OUTOFMEMORY, ⟨0, 0⟩⟩

/-- Witness for C6 at a concrete always-in-budget facade whose Evict
rejects. -/
theorem c6_witness :
    (∃ rest, (c6Facade.CreateCommittedResource .DEFAULT 65536 bufferDesc).events =
      Event.evictCall 65536
          (c6Facade.device.getPreferredMemorySegmentGroup c6Facade.isUMA .DEFAULT) :: rest) ∧
    (FAILED (c6Facade.residencyEvict 65536
        (c6Facade.device.getPreferredMemorySegmentGroup c6Facade.isUMA .DEFAULT)) = true →
      c6Facade.CreateCommittedResource .DEFAULT 65536 bufferDesc =
        ⟨c6Facade.residencyEvict 65536
            (c6Facade.device.getPreferredMemorySegmentGroup c6Facade.isUMA .DEFAULT), none,
          [Event.evictCall 65536
            (c6Facade.device.getPreferredMemorySegmentGroup c6Facade.isUMA .DEFAULT)]⟩) :=
  c6_always_in_budget_evicts_before_commit c6Facade .DEFAULT 65536 bufferDesc rfl rfl

/-- C7: a request whose computed allocation size exceeds the configured
maximum resource heap size or the device's maximum resource size fails
with E_OUTOFMEMORY, with no allocation attempted (empty event trace,
state unchanged, no allocation out). -/
theorem c7_oversized_resource_rejected_before_allocation (ra : ResourceAllocator)
    (allocationDescriptor : AllocationDesc) (resourceDescriptor : ResourceDesc)
    (initialResourceState : ResourceStates)
    (h : (GetResourceAllocationInfo ra.device resourceDescriptor).2.sizeInBytes >
        ra.maxResourceHeapSize ∨
      (GetResourceAllocationInfo ra.device resourceDescriptor).2.sizeInBytes >
        ra.maxResourceSize) :
    ra.CreateResourceInternal allocationDescriptor resourceDescriptor
      initialResourceState = ⟨E_OUTOFMEMORY, none, ra, []⟩ := by
  unfold ResourceAllocator.CreateResourceInternal
  by_cases hk : (GetResourceAllocationInfo ra.device resourceDescriptor).2.sizeInBytes =
      kInvalidSize
  · simp [hk]
  · simp [hk, h]

def c7Facade : ResourceAllocator :=
  ⟨testDevice, false, false, 2, false, false, 1024, 2 ^ 32,
    fun _ => noneAllocator 1, fun _ => noneAllocator 2, fun _ => noneAllocator 3,
    fun _ _ => S_OK, ⟨0, 0⟩⟩

def stdAllocationDesc : AllocationDesc := ⟨.DEFAULT, false, false, false, false⟩

/-- Witness for C7: a 64KB buffer request against a facade configured
with a 1KB maximum resource heap size. -/
theorem c7_witness :
    c7Facade.CreateResourceInternal stdAllocationDesc bufferDesc .GENERIC_READ =
      ⟨E_OUTOFMEMORY, none, c7Facade, []⟩ :=
  c7_oversized_resource_rejected_before_allocation c7Facade stdAllocationDesc
    bufferDesc .GENERIC_READ (by decide)

/-- C10: whenever the device reports an allocation size of 0 (on the
path that consults the device, i.e. not the buffer fast path that
computes the size arithmetically), GetResourceAllocationInfo replaces
the size with the invalid-size sentinel and CreateResourceInternal
returns E_OUTOFMEMORY with an empty trace, before any allocator is
consulted. -/
theorem c10_zero_size_becomes_invalid_and_oom (ra : ResourceAllocator)
    (allocationDescriptor : AllocationDesc) (resourceDescriptor : ResourceDesc)
    (initialResourceState : ResourceStates)
    (hz : ∀ d, (ra.device.getResourceAllocationInfo d).sizeInBytes = 0)
    (hnb : ¬(resourceDescriptor.alignment = 0 ∧ resourceDescriptor.dimension = .BUFFER)) :
    (GetResourceAllocationInfo ra.device resourceDescriptor).2.sizeInBytes =
        kInvalidSize ∧
      ra.CreateResourceInternal allocationDescriptor resourceDescriptor
        initialResourceState = ⟨E_OUTOFMEMORY, none, ra, []⟩ := by
  have hq : ∀ d, (GetResourceAllocationInfoQuery ra.device d).2.sizeInBytes = 0 := by
    intro d
    simp only [GetResourceAllocationInfoQuery]
    split <;> exact hz _
  have hmain : (GetResourceAllocationInfo ra.device resourceDescriptor).2.sizeInBytes =
      kInvalidSize := by
    simp only [GetResourceAllocationInfo]
    rw [if_neg hnb, if_pos (hq _)]
  refine ⟨hmain, ?_⟩
  unfold ResourceAllocator.CreateResourceInternal
  simp [hmain]

def zeroDevice : DeviceModel :=
  ⟨fun _ => ⟨0, 65536⟩,
    fun _ => false,
    fun _ _ => .LOCAL,
    fun _ => S_OK,
    fun _ _ _ => S_OK,
    fun _ _ => S_OK⟩

def c10Facade : ResourceAllocator :=
  ⟨zeroDevice, false, false, 2, false, false, 2 ^ 32, 2 ^ 32,
    fun _ => noneAllocator 1, fun _ => noneAllocator 2, fun _ => noneAllocator 3,
    fun _ _ => S_OK, ⟨0, 0⟩⟩

def textureDesc : ResourceDesc := ⟨.TEXTURE2D, 0, 1024, ⟨false, false⟩, 1⟩

/-- Witness for C10: a texture whose device-reported allocation size is
0 is rejected with E_OUTOFMEMORY and an empty trace. -/
theorem c10_witness :
    (GetResourceAllocationInfo c10Facade.device textureDesc).2.sizeInBytes =
        kInvalidSize ∧
      c10Facade.CreateResourceInternal stdAllocationDesc textureDesc .GENERIC_READ =
        ⟨E_OUTOFMEMORY, none, c10Facade, []⟩ :=
  c10_zero_size_becomes_invalid_and_oom c10Facade stdAllocationDesc textureDesc
    .GENERIC_READ (fun _ => rfl) (by decide)

/-- When the allocator has no memory to offer, TryAllocateResource
fails with E_FAIL, returns nothing, and its trace holds at most the
TryAllocateMemory query. -/
theorem tryAllocateResource_fails_without_memory (allocator : MemoryAllocator)
    (h : ∀ s a na cs pf, allocator.tryAllocateMemory s a na cs pf = none)
    (size alignment : Nat) (neverAllocate cacheSize prefetchMemory : Bool)
    (createResourceFn : MemoryAllocation → Attempt) :
    ∃ evs, TryAllocateResource allocator size alignment neverAllocate cacheSize
        prefetchMemory createResourceFn = ⟨E_FAIL, none, evs⟩ ∧
      evs.all Event.isTryAllocateMemoryCall = true := by
  unfold TryAllocateResource
  by_cases hr : allocator.memorySize ≠ kInvalidSize ∧ size > allocator.memorySize
  · exact ⟨[], by simp [hr], rfl⟩
  · exact ⟨[Event.tryAllocateMemoryCall allocator.id size alignment neverAllocate
      cacheSize prefetchMemory], by simp [hr, h], rfl⟩

/-- The within-resource strategy fails with an innocuous trace when the
buffer allocator has no memory to offer. -/
theorem suballocateWithinResourceAttempt_fails (ra : ResourceAllocator)
    (allocationDescriptor : AllocationDesc) (newResourceDesc : ResourceDesc)
    (resourceInfo : ResourceAllocationInfo) (resourceHeapType : RESOURCE_HEAP_TYPE)
    (initialResourceState : ResourceStates)
    (h : ∀ s a na cs pf, (ra.bufferAllocatorOfType resourceHeapType).tryAllocateMemory
      s a na cs pf = none) :
    ∃ evs, ra.suballocateWithinResourceAttempt allocationDescriptor newResourceDesc
        resourceInfo resourceHeapType initialResourceState = ⟨E_FAIL, none, evs⟩ ∧
      evs.all Event.isTryAllocateMemoryCall = true := by
  unfold ResourceAllocator.suballocateWithinResourceAttempt
  split
  · exact tryAllocateResource_fails_without_memory _ h _ _ _ _ _ _
  · exact ⟨[], rfl, rfl⟩

/-- The sub-allocated heap strategy fails with an innocuous trace when
the resource allocator has no memory to offer. -/
theorem suballocatedHeapAttempt_fails (ra : ResourceAllocator)
    (allocationDescriptor : AllocationDesc) (newResourceDesc : ResourceDesc)
    (resourceInfo : ResourceAllocationInfo) (resourceHeapType : RESOURCE_HEAP_TYPE)
    (h : ∀ s a na cs pf, (ra.resourceAllocatorOfType resourceHeapType).tryAllocateMemory
      s a na cs pf = none) :
    ∃ evs, ra.suballocatedHeapAttempt allocationDescriptor newResourceDesc
        resourceInfo resourceHeapType = ⟨E_FAIL, none, evs⟩ ∧
      evs.all Event.isTryAllocateMemoryCall = true := by
  unfold ResourceAllocator.suballocatedHeapAttempt
  split
  · exact tryAllocateResource_fails_without_memory _ h _ _ _ _ _ _
  · exact ⟨[], rfl, rfl⟩

/-- The dedicated resource-heap strategy fails with an innocuous trace
when the resource-heap allocator has no memory to offer. -/
theorem resourceHeapAttempt_fails (ra : ResourceAllocator)
    (allocationDescriptor : AllocationDesc) (newResourceDesc : ResourceDesc)
    (resourceInfo : ResourceAllocationInfo) (resourceHeapType : RESOURCE_HEAP_TYPE)
    (h : ∀ s a na cs pf,
      (ra.resourceHeapAllocatorOfType resourceHeapType).tryAllocateMemory
        s a na cs pf = none) :
    ∃ evs, ra.resourceHeapAttempt allocationDescriptor newResourceDesc
        resourceInfo resourceHeapType = ⟨E_FAIL, none, evs⟩ ∧
      evs.all Event.isTryAllocateMemoryCall = true := by
  unfold ResourceAllocator.resourceHeapAttempt
  split
  · exact tryAllocateResource_fails_without_memory _ h _ _ _ _ _ _
  · exact ⟨[], rfl, rfl⟩

theorem succeeded_E_FAIL : SUCCEEDED E_FAIL = false := by decide

/-- C4: with the never-allocate flag set, when no sub-allocator can
satisfy the request from caches or pools (every TryAllocateMemory
returns nothing), CreateResourceInternal returns E_OUTOFMEMORY before
the committed fallback: no allocation is produced, the facade state is
unchanged, and the trace holds only TryAllocateMemory queries — no
eviction, committed creation, heap registration or deallocation. -/
theorem c4_never_allocate_fails_without_side_effects (ra : ResourceAllocator)
    (allocationDescriptor : AllocationDesc) (resourceDescriptor : ResourceDesc)
    (initialResourceState : ResourceStates)
    (hna : allocationDescriptor.neverAllocateFlag = true)
    (hinv : GetResourceHeapType
        (GetResourceAllocationInfo ra.device resourceDescriptor).1.dimension
        allocationDescriptor.heapType
        (GetResourceAllocationInfo ra.device resourceDescriptor).1.flags
        ra.resourceHeapTier ≠ .INVALID)
    (hb : ∀ t s a na cs pf,
      (ra.bufferAllocatorOfType t).tryAllocateMemory s a na cs pf = none)
    (hs : ∀ t s a na cs pf,
      (ra.resourceAllocatorOfType t).tryAllocateMemory s a na cs pf = none)
    (hh : ∀ t s a na cs pf,
      (ra.resourceHeapAllocatorOfType t).tryAllocateMemory s a na cs pf = none) :
    ∃ evs, ra.CreateResourceInternal allocationDescriptor resourceDescriptor
        initialResourceState = ⟨E_OUTOFMEMORY, none, ra, evs⟩ ∧
      evs.all Event.isTryAllocateMemoryCall = true := by
  obtain ⟨e1, he1, ha1⟩ := suballocateWithinResourceAttempt_fails ra
    allocationDescriptor (GetResourceAllocationInfo ra.device resourceDescriptor).1
    (GetResourceAllocationInfo ra.device resourceDescriptor).2
    (GetResourceHeapType
      (GetResourceAllocationInfo ra.device resourceDescriptor).1.dimension
      allocationDescriptor.heapType
      (GetResourceAllocationInfo ra.device resourceDescriptor).1.flags
      ra.resourceHeapTier) initialResourceState (hb _)
  obtain ⟨e2, he2, ha2⟩ := suballocatedHeapAttempt_fails ra
    allocationDescriptor (GetResourceAllocationInfo ra.device resourceDescriptor).1
    (GetResourceAllocationInfo ra.device resourceDescriptor).2
    (GetResourceHeapType
      (GetResourceAllocationInfo ra.device resourceDescriptor).1.dimension
      allocationDescriptor.heapType
      (GetResourceAllocationInfo ra.device resourceDescriptor).1.flags
      ra.resourceHeapTier) (hs _)
  obtain ⟨e3, he3, ha3⟩ := resourceHeapAttempt_fails ra
    allocationDescriptor (GetResourceAllocationInfo ra.device resourceDescriptor).1
    (GetResourceAllocationInfo ra.device resourceDescriptor).2
    (GetResourceHeapType
      (GetResourceAllocationInfo ra.device resourceDescriptor).1.dimension
      allocationDescriptor.heapType
      (GetResourceAllocationInfo ra.device resourceDescriptor).1.flags
      ra.resourceHeapTier) (hh _)
  by_cases hk : (GetResourceAllocationInfo ra.device resourceDescriptor).2.sizeInBytes =
      kInvalidSize
  · exact ⟨[], by simp [ResourceAllocator.CreateResourceInternal, hk], rfl⟩
  · by_cases hmax : (GetResourceAllocationInfo ra.device resourceDescriptor).2.sizeInBytes >
        ra.maxResourceHeapSize ∨
      (GetResourceAllocationInfo ra.device resourceDescriptor).2.sizeInBytes >
        ra.maxResourceSize
    · exact ⟨[], by simp [ResourceAllocator.CreateResourceInternal, hk, hmax], rfl⟩
    · refine ⟨e1 ++ e2 ++ e3, ?_, ?_⟩
      · simp only [ResourceAllocator.CreateResourceInternal]
        rw [if_neg hk, if_neg hmax, if_neg hinv, he1, he2, he3]
        simp [succeeded_E_FAIL, hna]
      · simp [List.all_append, ha1, ha2, ha3]

def c4Facade : ResourceAllocator :=
  ⟨testDevice, false, false, 2, false, false, 2 ^ 32, 2 ^ 32,
    fun _ => noneAllocator 1, fun _ => noneAllocator 2, fun _ => noneAllocator 3,
    fun _ _ => S_OK, ⟨0, 0⟩⟩

def c4AllocationDesc : AllocationDesc := ⟨.DEFAULT, true, false, false, false⟩

/-- Witness for C4: a never-allocate request against empty stacks. -/
theorem c4_witness :
    ∃ evs, c4Facade.CreateResourceInternal c4AllocationDesc bufferDesc .GENERIC_READ =
        ⟨E_OUTOFMEMORY, none, c4Facade, evs⟩ ∧
      evs.all Event.isTryAllocateMemoryCall = true :=
  c4_never_allocate_fails_without_side_effects c4Facade c4AllocationDesc bufferDesc
    .GENERIC_READ rfl (by decide) (fun _ _ _ _ _ _ => rfl) (fun _ _ _ _ _ _ => rfl)
    (fun _ _ _ _ _ _ => rfl)

theorem failed_S_OK : FAILED S_OK = false := by decide

/-- When the pre-eviction (if configured) and the device's committed
creation succeed, CreateCommittedResource returns S_OK with a heap of
exactly the requested size in the preferred segment group. -/
theorem createCommittedResource_success (ra : ResourceAllocator) (heapType : HeapType)
    (resourceSize : Nat) (resourceDescriptor : ResourceDesc)
    (hev : ra.isAlwaysInBudget = true → ra.residencyManagerPresent = true →
      FAILED (ra.residencyEvict resourceSize
        (ra.device.getPreferredMemorySegmentGroup ra.isUMA heapType)) = false)
    (hdev : FAILED (ra.device.createCommittedResource heapType resourceDescriptor) = false) :
    ∃ evs, ra.CreateCommittedResource heapType resourceSize resourceDescriptor =
      ⟨S_OK, some ⟨resourceSize,
        ra.device.getPreferredMemorySegmentGroup ra.isUMA heapType⟩, evs⟩ := by
  simp only [ResourceAllocator.CreateCommittedResource]
  rcases Bool.eq_false_or_eq_true ra.isAlwaysInBudget with hb | hb <;>
    rcases Bool.eq_false_or_eq_true ra.residencyManagerPresent with hrm | hrm
  · exact ⟨[Event.evictCall resourceSize
        (ra.device.getPreferredMemorySegmentGroup ra.isUMA heapType),
      Event.deviceCreateCommittedResourceCall,
      Event.insertHeapCall ⟨resourceSize,
        ra.device.getPreferredMemorySegmentGroup ra.isUMA heapType⟩],
      by simp [hb, hrm, hev hb hrm, hdev]⟩
  · exact ⟨[Event.deviceCreateCommittedResourceCall],
      by simp [hb, hrm, hdev, failed_S_OK]⟩
  · exact ⟨[Event.deviceCreateCommittedResourceCall,
      Event.insertHeapCall ⟨resourceSize,
        ra.device.getPreferredMemorySegmentGroup ra.isUMA heapType⟩],
      by simp [hb, hrm, hdev, failed_S_OK]⟩
  · exact ⟨[Event.deviceCreateCommittedResourceCall],
      by simp [hb, hrm, hdev, failed_S_OK]⟩

/-- The committed last-resort path of CreateResourceInternal: when the
request passes validation, no sub-allocator can serve it, allocation is
allowed, and eviction plus committed creation succeed, the facade
returns S_OK with a standalone allocation whose recorded allocator is
the facade, whose offset is the invalid-offset sentinel, whose method is
kStandalone and whose backing heap is sized exactly to the computed
request size, and bumps its used-memory counters by that size and one. -/
theorem committed_path_allocation (ra : ResourceAllocator)
    (allocationDescriptor : AllocationDesc) (resourceDescriptor : ResourceDesc)
    (initialResourceState : ResourceStates)
    (hk : (GetResourceAllocationInfo ra.device resourceDescriptor).2.sizeInBytes ≠
      kInvalidSize)
    (hmax : ¬((GetResourceAllocationInfo ra.device resourceDescriptor).2.sizeInBytes >
        ra.maxResourceHeapSize ∨
      (GetResourceAllocationInfo ra.device resourceDescriptor).2.sizeInBytes >
        ra.maxResourceSize))
    (hinv : GetResourceHeapType
        (GetResourceAllocationInfo ra.device resourceDescriptor).1.dimension
        allocationDescriptor.heapType
        (GetResourceAllocationInfo ra.device resourceDescriptor).1.flags
        ra.resourceHeapTier ≠ .INVALID)
    (hna : allocationDescriptor.neverAllocateFlag = false)
    (hb : ∀ t s a na cs pf,
      (ra.bufferAllocatorOfType t).tryAllocateMemory s a na cs pf = none)
    (hs : ∀ t s a na cs pf,
      (ra.resourceAllocatorOfType t).tryAllocateMemory s a na cs pf = none)
    (hh : ∀ t s a na cs pf,
      (ra.resourceHeapAllocatorOfType t).tryAllocateMemory s a na cs pf = none)
    (hev : ra.isAlwaysInBudget = true → ra.residencyManagerPresent = true →
      FAILED (ra.residencyEvict
        (GetResourceAllocationInfo ra.device resourceDescriptor).2.sizeInBytes
        (ra.device.getPreferredMemorySegmentGroup ra.isUMA
          allocationDescriptor.heapType)) = false)
    (hdev : FAILED (ra.device.createCommittedResource allocationDescriptor.heapType
      (GetResourceAllocationInfo ra.device resourceDescriptor).1) = false) :
    ∃ evs, ra.CreateResourceInternal allocationDescriptor resourceDescriptor
        initialResourceState =
      ⟨S_OK, some ⟨some AllocatorRef.facade, kInvalidOffset, .kStandalone,
          some ⟨(GetResourceAllocationInfo ra.device resourceDescriptor).2.sizeInBytes,
            ra.device.getPreferredMemorySegmentGroup ra.isUMA
              allocationDescriptor.heapType⟩, none, true⟩,
        { ra with counters := bumpCounters (GetResourceAllocationInfo ra.device resourceDescriptor).2.sizeInBytes ra.counters }, evs⟩ := by
  obtain ⟨e1, he1, -⟩ := suballocateWithinResourceAttempt_fails ra
    allocationDescriptor (GetResourceAllocationInfo ra.device resourceDescriptor).1
    (GetResourceAllocationInfo ra.device resourceDescriptor).2
    (GetResourceHeapType
      (GetResourceAllocationInfo ra.device resourceDescriptor).1.dimension
      allocationDescriptor.heapType
      (GetResourceAllocationInfo ra.device resourceDescriptor).1.flags
      ra.resourceHeapTier) initialResourceState (hb _)
  obtain ⟨e2, he2, -⟩ := suballocatedHeapAttempt_fails ra
    allocationDescriptor (GetResourceAllocationInfo ra.device resourceDescriptor).1
    (GetResourceAllocationInfo ra.device resourceDescriptor).2
    (GetResourceHeapType
      (GetResourceAllocationInfo ra.device resourceDescriptor).1.dimension
      allocationDescriptor.heapType
      (GetResourceAllocationInfo ra.device resourceDescriptor).1.flags
      ra.resourceHeapTier) (hs _)
  obtain ⟨e3, he3, -⟩ := resourceHeapAttempt_fails ra
    allocationDescriptor (GetResourceAllocationInfo ra.device resourceDescriptor).1
    (GetResourceAllocationInfo ra.device resourceDescriptor).2
    (GetResourceHeapType
      (GetResourceAllocationInfo ra.device resourceDescriptor).1.dimension
      allocationDescriptor.heapType
      (GetResourceAllocationInfo ra.device resourceDescriptor).1.flags
      ra.resourceHeapTier) (hh _)
  obtain ⟨ec, hec⟩ := createCommittedResource_success ra allocationDescriptor.heapType
    (GetResourceAllocationInfo ra.device resourceDescriptor).2.sizeInBytes
    (GetResourceAllocationInfo ra.device resourceDescriptor).1 hev hdev
  refine ⟨e1 ++ e2 ++ e3 ++ ec, ?_⟩
  simp only [ResourceAllocator.CreateResourceInternal]
  rw [if_neg hk, if_neg hmax, if_neg hinv, he1, he2, he3, hec]
  simp [succeeded_E_FAIL, hna, failed_S_OK, bumpCounters]

def happyFacade : ResourceAllocator :=
  ⟨testDevice, false, false, 2, false, false, 2 ^ 32, 2 ^ 32,
    fun _ => noneAllocator 1, fun _ => noneAllocator 2, fun _ => noneAllocator 3,
    fun _ _ => S_OK, ⟨0, 0⟩⟩

/-- C5 counterexample: a concrete committed (standalone) allocation
produced by the facade's last-resort path records the invalid-offset
sentinel, not offset 0, as its offset. -/
theorem c5_counterexample_offset_is_sentinel :
    (happyFacade.CreateResourceInternal stdAllocationDesc bufferDesc
        .GENERIC_READ).allocation =
      some ⟨some AllocatorRef.facade, kInvalidOffset, .kStandalone,
        some ⟨65536, .LOCAL⟩, none, true⟩ ∧
    kInvalidOffset ≠ 0 := by decide

/-- C5 (amended): every standalone committed allocation produced by the
facade's last-resort path records the facade as its allocator, has its
offset set to the invalid-offset sentinel (kInvalidOffset, not 0), uses
the kStandalone method, and its backing memory is sized exactly to the
computed request size. -/
theorem c5_standalone_allocation_sentinel_offset_and_exact_size
    (ra : ResourceAllocator) (allocationDescriptor : AllocationDesc)
    (resourceDescriptor : ResourceDesc) (initialResourceState : ResourceStates)
    (hk : (GetResourceAllocationInfo ra.device resourceDescriptor).2.sizeInBytes ≠
      kInvalidSize)
    (hmax : ¬((GetResourceAllocationInfo ra.device resourceDescriptor).2.sizeInBytes >
        ra.maxResourceHeapSize ∨
      (GetResourceAllocationInfo ra.device resourceDescriptor).2.sizeInBytes >
        ra.maxResourceSize))
    (hinv : GetResourceHeapType
        (GetResourceAllocationInfo ra.device resourceDescriptor).1.dimension
        allocationDescriptor.heapType
        (GetResourceAllocationInfo ra.device resourceDescriptor).1.flags
        ra.resourceHeapTier ≠ .INVALID)
    (hna : allocationDescriptor.neverAllocateFlag = false)
    (hb : ∀ t s a na cs pf,
      (ra.bufferAllocatorOfType t).tryAllocateMemory s a na cs pf = none)
    (hs : ∀ t s a na cs pf,
      (ra.resourceAllocatorOfType t).tryAllocateMemory s a na cs pf = none)
    (hh : ∀ t s a na cs pf,
      (ra.resourceHeapAllocatorOfType t).tryAllocateMemory s a na cs pf = none)
    (hev : ra.isAlwaysInBudget = true → ra.residencyManagerPresent = true →
      FAILED (ra.residencyEvict
        (GetResourceAllocationInfo ra.device resourceDescriptor).2.sizeInBytes
        (ra.device.getPreferredMemorySegmentGroup ra.isUMA
          allocationDescriptor.heapType)) = false)
    (hdev : FAILED (ra.device.createCommittedResource allocationDescriptor.heapType
      (GetResourceAllocationInfo ra.device resourceDescriptor).1) = false) :
    ∃ evs, ra.CreateResourceInternal allocationDescriptor resourceDescriptor
        initialResourceState =
      ⟨S_OK, some ⟨some AllocatorRef.facade, kInvalidOffset, .kStandalone,
          some ⟨(GetResourceAllocationInfo ra.device resourceDescriptor).2.sizeInBytes,
            ra.device.getPreferredMemorySegmentGroup ra.isUMA
              allocationDescriptor.heapType⟩, none, true⟩,
        { ra with counters := bumpCounters (GetResourceAllocationInfo ra.device resourceDescriptor).2.sizeInBytes ra.counters }, evs⟩ :=
  committed_path_allocation ra allocationDescriptor resourceDescriptor
    initialResourceState hk hmax hinv hna hb hs hh hev hdev

/-- Witness for the amended C5 at a concrete facade: the standalone
allocation carries the sentinel offset and a 64KB heap for the 64KB
computed request. -/
theorem c5_witness :
    ∃ evs, happyFacade.CreateResourceInternal stdAllocationDesc bufferDesc
        .GENERIC_READ =
      ⟨S_OK, some ⟨some AllocatorRef.facade, kInvalidOffset, .kStandalone,
          some ⟨65536, .LOCAL⟩, none, true⟩,
        { happyFacade with counters := bumpCounters 65536 ⟨0, 0⟩ }, evs⟩ :=
  c5_standalone_allocation_sentinel_offset_and_exact_size happyFacade
    stdAllocationDesc bufferDesc .GENERIC_READ (by decide) (by decide) (by decide)
    rfl (fun _ _ _ _ _ _ => rfl) (fun _ _ _ _ _ _ => rfl) (fun _ _ _ _ _ _ => rfl)
    (by decide) (by decide)

def c2AllocationDesc : AllocationDesc := ⟨.DEFAULT, false, false, true, false⟩

/-- C2 (code bug evidence): for a request entering the facade with the
prefetch flag set, on the sub-allocated resource-heap path the stack's
TryAllocateMemory is invoked with cacheSize = true (the prefetch flag's
value) and prefetchMemory = false — the call site passes the prefetch
flag in the cacheSize parameter position — and no call with
prefetchMemory = true (and cacheSize = false) as the claim demands ever
occurs. -/
theorem c2_prefetch_flag_passed_in_cache_size_position :
    (happyFacade.CreateResourceInternal c2AllocationDesc bufferDesc
        .GENERIC_READ).events =
      [Event.tryAllocateMemoryCall 1 65536 65536 false true false,
        Event.tryAllocateMemoryCall 2 65536 4194304 false false false,
        Event.deviceCreateCommittedResourceCall] ∧
    ∀ e ∈ (happyFacade.CreateResourceInternal c2AllocationDesc bufferDesc
        .GENERIC_READ).events,
      e ≠ Event.tryAllocateMemoryCall 1 65536 65536 false false true := by decide

/-- Conditions under which every CreateResource call takes the
committed last-resort path and succeeds: the request passes size and
heap-type validation, allocation is permitted, no sub-allocator has
memory to offer, and pre-eviction (when configured) and the device's
committed creation succeed.  None of the conditions depends on the
facade's mutable counters. -/
structure CommittedHappy (ra : ResourceAllocator) (allocationDescriptor : AllocationDesc)
    (resourceDescriptor : ResourceDesc) : Prop where
  sizeValid : (GetResourceAllocationInfo ra.device resourceDescriptor).2.sizeInBytes ≠
    kInvalidSize
  sizeWithinMax : ¬((GetResourceAllocationInfo ra.device resourceDescriptor).2.sizeInBytes >
      ra.maxResourceHeapSize ∨
    (GetResourceAllocationInfo ra.device resourceDescriptor).2.sizeInBytes >
      ra.maxResourceSize)
  heapTypeValid : GetResourceHeapType
      (GetResourceAllocationInfo ra.device resourceDescriptor).1.dimension
      allocationDescriptor.heapType
      (GetResourceAllocationInfo ra.device resourceDescriptor).1.flags
      ra.resourceHeapTier ≠ .INVALID
  canAllocate : allocationDescriptor.neverAllocateFlag = false
  bufferNone : ∀ t s a na cs pf,
    (ra.bufferAllocatorOfType t).tryAllocateMemory s a na cs pf = none
  resourceNone : ∀ t s a na cs pf,
    (ra.resourceAllocatorOfType t).tryAllocateMemory s a na cs pf = none
  heapNone : ∀ t s a na cs pf,
    (ra.resourceHeapAllocatorOfType t).tryAllocateMemory s a na cs pf = none
  evictOk : ra.isAlwaysInBudget = true → ra.residencyManagerPresent = true →
    FAILED (ra.residencyEvict
      (GetResourceAllocationInfo ra.device resourceDescriptor).2.sizeInBytes
      (ra.device.getPreferredMemorySegmentGroup ra.isUMA
        allocationDescriptor.heapType)) = false
  deviceOk : FAILED (ra.device.createCommittedResource allocationDescriptor.heapType
    (GetResourceAllocationInfo ra.device resourceDescriptor).1) = false

/-- The happy-path conditions only mention immutable configuration, so
they survive counter updates. -/
theorem committedHappy_update_counters (ra : ResourceAllocator)
    (allocationDescriptor : AllocationDesc) (resourceDescriptor : ResourceDesc)
    (c : AllocatorCounters)
    (h : CommittedHappy ra allocationDescriptor resourceDescriptor) :
    CommittedHappy { ra with counters := c } allocationDescriptor resourceDescriptor :=
  ⟨h.sizeValid, h.sizeWithinMax, h.heapTypeValid, h.canAllocate, h.bufferNone,
    h.resourceNone, h.heapNone, h.evictOk, h.deviceOk⟩

/-- The standalone allocation produced by a successful committed path. -/
def committedAllocation (ra : ResourceAllocator) (allocationDescriptor : AllocationDesc)
    (resourceDescriptor : ResourceDesc) : ResourceAllocation :=
  ⟨some AllocatorRef.facade, kInvalidOffset, .kStandalone,
    some ⟨(GetResourceAllocationInfo ra.device resourceDescriptor).2.sizeInBytes,
      ra.device.getPreferredMemorySegmentGroup ra.isUMA
        allocationDescriptor.heapType⟩, none, true⟩

/-- Characterization of `k` consecutive committed allocations: the
counters are bumped `k` times and `k` identical standalone allocations
are handed out. -/
theorem createCommittedK_spec (allocationDescriptor : AllocationDesc)
    (resourceDescriptor : ResourceDesc) (initialResourceState : ResourceStates) :
    ∀ (k : Nat) (ra : ResourceAllocator),
      CommittedHappy ra allocationDescriptor resourceDescriptor →
      createCommittedK allocationDescriptor resourceDescriptor initialResourceState
          k ra =
        ({ ra with counters := (bumpCounters (GetResourceAllocationInfo ra.device resourceDescriptor).2.sizeInBytes)^[k] ra.counters },
          List.replicate k (committedAllocation ra allocationDescriptor resourceDescriptor))
  | 0, ra, _ => rfl
  | Nat.succ k, ra, h => by
    obtain ⟨evs, hstep⟩ := committed_path_allocation ra allocationDescriptor
      resourceDescriptor initialResourceState h.sizeValid h.sizeWithinMax
      h.heapTypeValid h.canAllocate h.bufferNone h.resourceNone h.heapNone
      h.evictOk h.deviceOk
    have ih := createCommittedK_spec allocationDescriptor resourceDescriptor
      initialResourceState k
      { ra with counters := bumpCounters (GetResourceAllocationInfo ra.device resourceDescriptor).2.sizeInBytes ra.counters }
      (committedHappy_update_counters ra allocationDescriptor resourceDescriptor _ h)
    simp only [createCommittedK, hstep]
    rw [ih]
    rfl

/-- Releasing `k` copies of one allocation drops the counters `k`
times. -/
theorem deallocateList_replicate (a : ResourceAllocation) :
    ∀ (k : Nat) (ra : ResourceAllocator),
      deallocateList ra (List.replicate k a) =
        { ra with counters := (dropCounters a.GetSize)^[k] ra.counters }
  | 0, ra => rfl
  | Nat.succ k, ra => by
    show deallocateList (ra.DeallocateMemory a) (List.replicate k a) = _
    rw [deallocateList_replicate a k (ra.DeallocateMemory a)]
    rfl

/-- One deallocation of size `s` exactly undoes one committed bump of
size `s`, provided the counters and the size fit in 64 bits. -/
theorem sub64_add64 (u s : Nat) (hu : u < 2 ^ 64) :
    sub64 (add64 u s) s = u := by
  simp only [add64, sub64]
  omega

theorem drop_bump (s : Nat) (c : AllocatorCounters)
    (hu : c.usedMemoryUsage < 2 ^ 64) (hc : c.usedMemoryCount < 2 ^ 64) :
    dropCounters s (bumpCounters s c) = c := by
  obtain ⟨u, n⟩ := c
  dsimp only at hu hc
  simp only [dropCounters, bumpCounters, AllocatorCounters.mk.injEq]
  exact ⟨sub64_add64 u s hu, sub64_add64 n 1 hc⟩

theorem bumpCounters_lt (s : Nat) (c : AllocatorCounters) :
    (bumpCounters s c).usedMemoryUsage < 2 ^ 64 ∧
      (bumpCounters s c).usedMemoryCount < 2 ^ 64 := by
  simp only [bumpCounters, add64]
  exact ⟨Nat.mod_lt _ (by norm_num), Nat.mod_lt _ (by norm_num)⟩

/-- `k` deallocations exactly undo `k` committed bumps of the same
size. -/
theorem drop_bump_iterate (s : Nat) :
    ∀ (k : Nat) (c : AllocatorCounters), c.usedMemoryUsage < 2 ^ 64 →
      c.usedMemoryCount < 2 ^ 64 →
      (dropCounters s)^[k] ((bumpCounters s)^[k] c) = c
  | 0, _, _, _ => rfl
  | Nat.succ k, c, hu, hc => by
    rw [Function.iterate_succ_apply (bumpCounters s),
      Function.iterate_succ_apply' (dropCounters s),
      drop_bump_iterate s k (bumpCounters s c) (bumpCounters_lt s c).1
        (bumpCounters_lt s c).2]
    exact drop_bump s c hu hc

/-- C8: after the facade performs `k` successful committed allocations
and then deallocates all `k` of them, the facade returns to its prior
state: each DeallocateMemory subtracts exactly the size and count that
the corresponding allocation added, so the used-memory counters return
to their prior values. -/
theorem c8_committed_roundtrip_restores_counters (ra : ResourceAllocator)
    (allocationDescriptor : AllocationDesc) (resourceDescriptor : ResourceDesc)
    (initialResourceState : ResourceStates) (k : Nat)
    (h : CommittedHappy ra allocationDescriptor resourceDescriptor)
    (hu : ra.counters.usedMemoryUsage < 2 ^ 64)
    (hc : ra.counters.usedMemoryCount < 2 ^ 64) :
    deallocateList
      (createCommittedK allocationDescriptor resourceDescriptor initialResourceState
        k ra).1
      (createCommittedK allocationDescriptor resourceDescriptor initialResourceState
        k ra).2 = ra := by
  rw [createCommittedK_spec allocationDescriptor resourceDescriptor
    initialResourceState k ra h]
  rw [deallocateList_replicate]
  have harith : (dropCounters (committedAllocation ra allocationDescriptor
        resourceDescriptor).GetSize)^[k]
      ({ ra with counters := (bumpCounters (GetResourceAllocationInfo ra.device resourceDescriptor).2.sizeInBytes)^[k] ra.counters }).counters =
      ra.counters := by
    show (dropCounters (GetResourceAllocationInfo ra.device
        resourceDescriptor).2.sizeInBytes)^[k]
      ((bumpCounters (GetResourceAllocationInfo ra.device
        resourceDescriptor).2.sizeInBytes)^[k] ra.counters) = ra.counters
    exact drop_bump_iterate _ k ra.counters hu hc
  rw [harith]

def c8AllocationDesc : AllocationDesc := ⟨.DEFAULT, false, false, false, false⟩

/-- Witness for C8: three committed allocations and their three
releases on a concrete facade restore the facade exactly. -/
theorem c8_witness :
    deallocateList
      (createCommittedK c8AllocationDesc bufferDesc .GENERIC_READ 3 happyFacade).1
      (createCommittedK c8AllocationDesc bufferDesc .GENERIC_READ 3 happyFacade).2 =
      happyFacade :=
  c8_committed_roundtrip_restores_counters happyFacade c8AllocationDesc bufferDesc
    .GENERIC_READ 3
    ⟨by decide, by decide, by decide, rfl, fun _ _ _ _ _ _ => rfl,
      fun _ _ _ _ _ _ => rfl, fun _ _ _ _ _ _ => rfl, by decide, by decide⟩
    (by decide) (by decide)

end GPGMM
